import Mathlib

/-!
Verification development for the order-fulfillment and webhook-reconciliation
engine of a digital-goods shop.

The embedding models, faithfully to the JavaScript source:
* `Account.markAsSold` (server/config/database.js and the Account model):
  claim one available inventory unit for a product and bind it to an order;
* `StockSyncService` (server/services/stockSync.service.js): recompute each
  product's available count and repair the cached stock in product.json;
* the Pakasir payment webhook `POST /pakasir` (server/routes/webhook.js):
  flat-file order store, amount validation, completion with a generated
  redeem code, e-mail dispatch, cached stock decrement in roles.json;
* the payment-router webhook `POST /webhook/pakasir` (server/routes/payment.js):
  SQLite order store and a redeem-code pool as inventory, with an
  out-of-stock failure path;
* the manual admin completion `POST /orders/:orderId/complete`
  (server/routes/admin/orders-accounts.js).

JavaScript-specific semantics (truthiness of strings and numbers, `parseInt`,
`Number.prototype.toString` for non-negative integers) are embedded
explicitly below.
-/

/-! ### JavaScript primitive semantics -/

/-- JS string truthiness: `undefined`/absent and the empty string are falsy.
`strTruthy o` is the value when truthy, `none` otherwise. -/
def strTruthy (o : Option String) : Option String :=
  match o with
  | none => none
  | some s => if s = "" then none else some s

/-- JS `a || b` on (possibly absent) strings: the left value when truthy,
otherwise the right operand as-is. -/
def jsStrOr (a b : Option String) : Option String :=
  match strTruthy a with
  | some s => some s
  | none => b

/-- Decimal digit value of a character, `none` for non-digits. -/
def jsDigitVal? (c : Char) : Option Nat :=
  if '0' ≤ c ∧ c ≤ '9' then some (c.toNat - '0'.toNat) else none

/-- Accumulate the longest leading run of decimal digits, JS-`parseInt` style:
the accumulator is `none` until at least one digit has been read (NaN). -/
def takeLeadDigits : List Char → Option Nat → Option Nat
  | [], acc => acc
  | c :: rest, acc =>
    match jsDigitVal? c with
    | some d => takeLeadDigits rest (some ((acc.getD 0) * 10 + d))
    | none => acc

/-- JS `parseInt(s)` (radix 10): skip leading whitespace, optional sign,
longest digit prefix; `none` models NaN. (The hexadecimal `0x` corner of
`parseInt` is not modelled; the system only ever stores decimal strings.) -/
def jsParseInt (s : String) : Option Int :=
  match s.toList.dropWhile (fun c => c.isWhitespace) with
  | [] => none
  | c :: rest =>
    if c = '-' then (takeLeadDigits rest none).map (fun n => -(n : Int))
    else if c = '+' then (takeLeadDigits rest none).map (fun n => (n : Int))
    else (takeLeadDigits (c :: rest) none).map (fun n => (n : Int))

/-- JS `parseInt(s) || 0`: NaN (and 0 itself) collapse to 0. -/
def jsParseIntOr0 (s : String) : Int := (jsParseInt s).getD 0

/-- The character for a decimal digit. -/
def digitChar (k : Nat) : Char := Char.ofNat (48 + k)

/-- Decimal digits, least significant first, by structural recursion on a
fuel bound (so that the kernel can evaluate it); `natDigitsRev` supplies
sufficient fuel. -/
def natDigitsRevAux : Nat → Nat → List Char
  | 0, _ => []
  | fuel + 1, n =>
    if n < 10 then [digitChar n]
    else digitChar (n % 10) :: natDigitsRevAux fuel (n / 10)

/-- Decimal digits of a natural number, least significant first. -/
def natDigitsRev (n : Nat) : List Char := natDigitsRevAux (n + 1) n

/-- JS `Number.prototype.toString` restricted to naturals: decimal digits,
most significant first. -/
def jsNatToString (n : Nat) : String := ⟨(natDigitsRev n).reverse⟩

/-- The digit-fold step used to relate `takeLeadDigits` with arithmetic. -/
def digitFold (x : Nat) (c : Char) : Nat := x * 10 + (jsDigitVal? c).getD 0

/-! ### List update helpers

The JS code updates records either positionally (`orders[orderIndex] = v`
after `findIndex`) or by key (`UPDATE ... WHERE id = ?`). `replaceFirst`
models the positional pattern; key-based SQL updates are modelled with
`List.map` guarded on the key. -/

/-- Replace the first element satisfying `p` (the `findIndex` + assignment
pattern of the JS code); no change when nothing matches. -/
def replaceFirst (p : α → Bool) (v : α) : List α → List α
  | [] => []
  | x :: xs => if p x then v :: xs else x :: replaceFirst p v xs

/-! ### Inventory units: the `accounts` table and `Account.markAsSold`

From `server/config/database.js` (class `Account`) and the identical
`server/models/Account.js` draft. A row of the SQLite `accounts` table. -/

structure Account where
  id : Nat
  product_id : String
  email : String
  password : String := ""
  status : String := "available"
  sold_at : Option String := none
  sold_to : Option String := none
  order_id : Option String := none
  deriving Repr, DecidableEq

/-- `Account.markAsSold(productId, orderId, customerEmail)`:
`SELECT id FROM accounts WHERE product_id = ? AND status = 'available'
LIMIT 1`, then `UPDATE accounts SET status='sold', sold_at=now, sold_to=?,
order_id=? WHERE id = ?`, then re-select the row. `now` stands for
`CURRENT_TIMESTAMP`; the `UPDATE ... WHERE id` is modelled as a keyed map
(`id` is the primary key). Returns `none` when no unit is available. -/
def markAsSold (now : String) (accounts : List Account)
    (productId orderId customerEmail : String) : Option Account × List Account :=
  match accounts.find? (fun a => a.product_id == productId && a.status == "available") with
  | none => (none, accounts)
  | some a =>
    let a' : Account := { a with
      status := "sold", sold_at := some now,
      sold_to := some customerEmail, order_id := some orderId }
    (some a', accounts.map (fun x => if x.id == a.id then a' else x))

/-- `Account.getStock(productId)`: `SELECT COUNT(*) ... WHERE product_id = ?
AND status = 'available'`. -/
def getStock (accounts : List Account) (productId : String) : Nat :=
  accounts.countP (fun a => a.product_id == productId && a.status == "available")

/-! ### Stock Sync Reconciler (`server/services/stockSync.service.js`)

`product.json` stores stock values as strings; `updateProductJson` compares
`parseInt(product.stock) || 0` with the recomputed available count and
rewrites the entry on mismatch. -/

/-- One entry of `product.json`'s `roles` array (display fields omitted are
never read or written by the sync). -/
structure ProductEntry where
  id : String
  name : String := ""
  price : String := ""
  stock : String := "0"
  deriving Repr, DecidableEq

/-- `getAccountsCountByProduct` groups the accounts table by `product_id`;
a product has a stats row iff some account row carries its id. -/
def hasAccounts (accounts : List Account) (pid : String) : Bool :=
  accounts.any (fun a => a.product_id == pid)

/-- The `available` figure of a product's stats row (also `getStock`). -/
def availableCount (accounts : List Account) (pid : String) : Nat :=
  getStock accounts pid

/-- Whether `updateProductJson` rewrites this entry: with a stats row,
`parseInt(stock) || 0 !== available`; without one, `parseInt(stock) !== 0`
(NaN included, hence the comparison on the unprotected parse). -/
def entryNeedsUpdate (accounts : List Account) (p : ProductEntry) : Bool :=
  if hasAccounts accounts p.id then
    jsParseIntOr0 p.stock != (availableCount accounts p.id : Int)
  else
    !(jsParseInt p.stock == some 0)

/-- The rewritten entry: `product.stock = newStock.toString()` in the stats
branch and `product.stock = '0'` in the no-stats branch (where the available
count is 0, so both branches store the decimal of the available count). -/
def syncEntry (accounts : List Account) (p : ProductEntry) : ProductEntry :=
  if entryNeedsUpdate accounts p then
    { p with stock := jsNatToString (availableCount accounts p.id) }
  else p

/-- `updateProductJson(dbStats)`: walk every catalog entry, rewrite the stale
ones; the file is written back iff some entry changed, and the boolean
`updated` reports it. -/
def updateProductJson (accounts : List Account) (products : List ProductEntry) :
    Bool × List ProductEntry :=
  (products.any (entryNeedsUpdate accounts),
    if products.any (entryNeedsUpdate accounts) then
      products.map (syncEntry accounts)
    else products)

/-- `syncStock()`: recompute the per-product stats and run
`updateProductJson`; the returned boolean is the `updated` field of the
result object. -/
def syncStock (accounts : List Account) (products : List ProductEntry) :
    Bool × List ProductEntry :=
  updateProductJson accounts products

/-! ### The Pakasir webhook (`server/routes/webhook.js`, `POST /pakasir`)

Orders live in the flat file `data/orders.json` (read by `readOrders`,
written by `writeOrders`, which returns `false` instead of throwing);
the catalog cache lives in `data/roles.json` with a numeric `stock`.
The durable state between requests is the pair of files; an in-memory
mutation only survives when the corresponding `writeFileSync` succeeds. -/

/-- The `pakasirData` blob stored on completion. -/
structure PakasirData where
  amount : Int
  completed_at : Option String := none
  payment_method : Option String := none
  deriving Repr, DecidableEq

/-- An order record of `data/orders.json` (the fields the handler reads or
writes; the object spread `{...order}` preserves all of them). -/
structure WebOrder where
  orderId : String
  username : Option String := none
  customer : Option String := none
  roleId : Option String := none
  amount : Int
  status : String := "pending"
  paymentMethod : Option String := none
  redeemCode : Option String := none
  pakasirData : Option PakasirData := none
  pakasirStatus : Option String := none
  createdAt : Option String := none
  completedAt : Option String := none
  updatedAt : Option String := none
  emailSent : Option Bool := none
  emailSentAt : Option String := none
  emailMessageId : Option String := none
  emailError : Option String := none
  emailAttemptAt : Option String := none
  deriving Repr, DecidableEq

/-- One entry of `data/roles.json` (numeric `stock`, read and decremented by
the webhook's stock section). -/
structure CatalogRole where
  id : String
  name : String := ""
  stock : Int := 0
  deriving Repr, DecidableEq

/-- The webhook request body `{amount, order_id, project, status,
payment_method, completed_at}` (`project` is destructured but never used).
Missing string fields are modelled by `""`/`none` and a missing amount by
`0`, matching the JS truthiness test `!order_id || !amount || !status`. -/
structure PaymentEvent where
  order_id : String
  amount : Int
  status : String
  payment_method : Option String := none
  completed_at : Option String := none
  deriving Repr, DecidableEq

/-- The durable state the webhook reads and writes. -/
structure ShopState where
  orders : List WebOrder
  roles : List CatalogRole
  deriving Repr, DecidableEq

/-- Outcome of `whatsappBot.sendRedeemCode`: resolved with
`{success: true, messageId}`, resolved unsuccessfully (or null), or
rejected/thrown. -/
inductive SendOutcome where
  | ok (messageId : String)
  | fail (err : Option String)
  | exn (msg : String)
  deriving Repr, DecidableEq

/-- Environment of one webhook invocation: the generated redeem code, the
common timestamp for every `new Date().toISOString()` /
`CURRENT_TIMESTAMP` in the request, and the outcome of each side effect.
`writeOrdersOk` is the result of the `writeOrders` calls of this request
(`false` = the file write threw and was swallowed), `rolesWriteOk` whether
the roles-file write succeeded, `adminNotifyThrows` the error message when
`sendOrderNotification` rejects. The stock-alert notification
(`sendStockNotification`) runs after the roles write and its failure is
swallowed without touching state, so it needs no parameter. -/
structure PakasirEffects where
  newRedeemCode : String := "GTPS-00000000"
  now : String := "1970-01-01T00:00:00.000Z"
  writeOrdersOk : Bool := true
  sendRedeem : SendOutcome := .ok "mid-0"
  adminNotifyThrows : Option String := none
  rolesWriteOk : Bool := true
  deriving Repr, DecidableEq

/-- The JSON bodies the `/pakasir` route can answer with, in source order:
400 `{error:'Invalid data',…}`; `{received:true, warning:'Order not found in
local database'}`; 400 `{error:'Amount mismatch', expected, received}`;
`{received:true, message:'Order already processed'}`; the final
`{received:true, order_id, status, processed_at}`; and the outer catch's
200 `{received:true, error:'Internal processing error but webhook
received',…}`. -/
inductive WebhookReply where
  | invalidData
  | orderNotFound
  | amountMismatch (expected received : Int)
  | alreadyProcessed
  | ack (order_id status : String)
  | internalError (msg : String)
  deriving Repr, DecidableEq

/-- The HTTP status code attached to each reply (`res.status(400)` for the
two rejections, the implicit 200 of `res.json` otherwise — including the
outer catch, which explicitly sends `res.status(200)`). -/
def httpStatus : WebhookReply → Nat
  | .invalidData => 400
  | .orderNotFound => 200
  | .amountMismatch _ _ => 400
  | .alreadyProcessed => 200
  | .ack _ _ => 200
  | .internalError _ => 200

/-- Whether the reply body carries `received: true`. -/
def replyReceived : WebhookReply → Bool
  | .invalidData => false
  | .orderNotFound => true
  | .amountMismatch _ _ => false
  | .alreadyProcessed => true
  | .ack _ _ => true
  | .internalError _ => true

/-- The `warning` field of the reply body, when present. -/
def replyWarning : WebhookReply → Option String
  | .orderNotFound => some "Order not found in local database"
  | _ => none

/-- The order as updated on the completion path (lines 145–157 of
webhook.js): status `completed`, fresh redeem code, `payment_method ||
order.paymentMethod`, the `pakasirData` blob, `completed_at || now`. -/
def completedOrderUpdate (eff : PakasirEffects) (ev : PaymentEvent)
    (order : WebOrder) : WebOrder :=
  { order with
    status := "completed"
    redeemCode := some eff.newRedeemCode
    paymentMethod := jsStrOr ev.payment_method order.paymentMethod
    pakasirData := some ⟨ev.amount, ev.completed_at, ev.payment_method⟩
    completedAt := some ((strTruthy ev.completed_at).getD eff.now)
    updatedAt := some eff.now }

/-- The record left at `orders[orderIndex]` after the notification block
(lines 167–241): the customer e-mail (`order.username || order.customer`)
is attempted first, then the admin notification (`config.whatsapp?.adminNumber
|| 'growlycs@gmail.com'`, always truthy, hence always attempted); a throw
anywhere in the block falls to `catch (emailError)`, which overwrites the
entry with `{...updatedOrder, emailError, emailAttemptAt}` — note the spread
of `updatedOrder`, discarding any `emailSent` marker written just before. -/
def emailFinal (eff : PakasirEffects) (order updatedOrder : WebOrder) : WebOrder :=
  match jsStrOr order.username order.customer with
  | none =>
    match eff.adminNotifyThrows with
    | some m => { updatedOrder with emailError := some m, emailAttemptAt := some eff.now }
    | none => updatedOrder
  | some _ =>
    match eff.sendRedeem with
    | .exn m => { updatedOrder with emailError := some m, emailAttemptAt := some eff.now }
    | .ok mid =>
      match eff.adminNotifyThrows with
      | some m => { updatedOrder with emailError := some m, emailAttemptAt := some eff.now }
      | none => { updatedOrder with
          emailSent := some true, emailSentAt := some eff.now,
          emailMessageId := some mid }
    | .fail e =>
      match eff.adminNotifyThrows with
      | some m => { updatedOrder with emailError := some m, emailAttemptAt := some eff.now }
      | none => { updatedOrder with
          emailSent := some false,
          emailError := some (e.getD "Unknown error"),
          emailAttemptAt := some eff.now }

/-- The stock section (lines 243–264): when `order.roleId` is truthy, find
its entry in `roles.json` and, if `stock > 0`, decrement and write the
file; a throw while writing is swallowed (`catch (stockError)`), leaving
the file unchanged. -/
def stockRolesAfter (eff : PakasirEffects) (order : WebOrder)
    (roles : List CatalogRole) : List CatalogRole :=
  match strTruthy order.roleId with
  | none => roles
  | some rid =>
    match roles.find? (fun r => r.id == rid) with
    | none => roles
    | some r =>
      if r.stock > 0 then
        if eff.rolesWriteOk then
          replaceFirst (fun x => x.id == rid) { r with stock := r.stock - 1 } roles
        else roles
      else roles

/-- Result of one `/pakasir` request: the reply sent, the durable state
after the request, and the number of order-store lookups performed while
resolving the event's order (the handler calls `readOrders`/`findIndex`
exactly once, after the field check and with no retry loop). -/
structure PakasirResult where
  reply : WebhookReply
  state : ShopState
  lookups : Nat
  deriving Repr, DecidableEq

/-- The `POST /pakasir` handler. Control flow in source order:
1. required-field truthiness check (400 on failure);
2. single order lookup by `order_id` (ack + warning when absent);
3. strict amount comparison (400 on mismatch);
4. `status === 'completed'`: short-circuit only when the order is already
   `completed`; otherwise build the completed record, run the notification
   block, persist via `writeOrders`, and decrement the cached role stock;
5. any other status: overwrite the order's status when it differs
   (`pakasirStatus`, `updatedAt`), even from a terminal one;
6. final `res.json({received:true, order_id, status, processed_at})`.
Every throwing call of the body sits inside an inner try/catch, so the
outer `catch` (which would still answer 200 `received:true`) is modelled
only through `WebhookReply.internalError`. -/
def handlePakasir (eff : PakasirEffects) (st : ShopState) (ev : PaymentEvent) :
    PakasirResult :=
  if ev.order_id = "" ∨ ev.amount = 0 ∨ ev.status = "" then
    ⟨.invalidData, st, 0⟩
  else
    match st.orders.find? (fun o => o.orderId == ev.order_id) with
    | none => ⟨.orderNotFound, st, 1⟩
    | some order =>
      if order.amount ≠ ev.amount then
        ⟨.amountMismatch order.amount ev.amount, st, 1⟩
      else if ev.status = "completed" then
        if order.status = "completed" then
          ⟨.alreadyProcessed, st, 1⟩
        else
          let updatedOrder := completedOrderUpdate eff ev order
          let finalOrder := emailFinal eff order updatedOrder
          let orders' :=
            if eff.writeOrdersOk then
              replaceFirst (fun o => o.orderId == ev.order_id) finalOrder st.orders
            else st.orders
          ⟨.ack ev.order_id ev.status,
            ⟨orders', stockRolesAfter eff order st.roles⟩, 1⟩
      else
        if order.status ≠ ev.status then
          let updated := { order with
            status := ev.status, pakasirStatus := some ev.status,
            updatedAt := some eff.now }
          let orders' :=
            if eff.writeOrdersOk then
              replaceFirst (fun o => o.orderId == ev.order_id) updated st.orders
            else st.orders
          ⟨.ack ev.order_id ev.status, ⟨orders', st.roles⟩, 1⟩
        else ⟨.ack ev.order_id ev.status, st, 1⟩

/-! ### The payment-router webhook (`server/routes/payment.js`,
`POST /webhook/pakasir`)

This competing draft stores orders in the SQLite `orders` table (the
`Order` model) and allocates from the `redeem_codes` pool
(`RedeemCode.getAvailableCode` / `markAsUsed`), keyed by the order's
`role`. `Order.update(orderId, patch)` is `UPDATE orders SET … WHERE
orderId = ?`, modelled as a keyed map (orderId is UNIQUE). -/

/-- A row of the SQLite `redeem_codes` table. -/
structure RCode where
  code : String
  role : String
  used : Bool := false
  usedBy : Option String := none
  usedAt : Option String := none
  orderId : Option String := none
  deriving Repr, DecidableEq

/-- A row of the SQLite `orders` table (fields the modelled routes read or
write). -/
structure DbOrder where
  orderId : String
  username : String := ""
  role : String := ""
  productId : Option String := none
  amount : Int := 0
  status : String := "pending"
  redeemCode : Option String := none
  failedReason : Option String := none
  accountData : Option Account := none
  completedAt : Option String := none
  updatedAt : Option String := none
  cancelledAt : Option String := none
  deriving Repr, DecidableEq

/-- `RedeemCode.getAvailableCode(role)`: `SELECT * FROM redeem_codes WHERE
role = ? AND used = 0 ORDER BY createdAt ASC LIMIT 1` — the list is kept in
`createdAt` order. -/
def getAvailableCode (codes : List RCode) (role : String) : Option RCode :=
  codes.find? (fun c => c.role == role && !c.used)

/-- `RedeemCode.markAsUsed(code, usedBy, orderId)`: `UPDATE redeem_codes SET
used = 1, usedBy = ?, usedAt = now, orderId = ? WHERE code = ? AND used = 0`. -/
def markAsUsed (now : String) (codes : List RCode)
    (code usedBy : String) (orderId : Option String) : List RCode :=
  codes.map (fun c =>
    if c.code == code && !c.used then
      { c with
        used := true, usedBy := some usedBy,
        usedAt := some now, orderId := orderId }
    else c)

/-- `Order.update(orderId, patch)` specialised to the patches the webhook
issues, as a keyed map over the table. -/
def updateOrderRows (orders : List DbOrder) (orderId : String)
    (g : DbOrder → DbOrder) : List DbOrder :=
  orders.map (fun o => if o.orderId == orderId then g o else o)

/-- Replies of `POST /webhook/pakasir`: 400 `{error:'Missing order_id'}`,
404 `{error:'Order not found'}`, and the final `{received:true}`. -/
inductive PaymentWebhookReply where
  | missingOrderId
  | notFound
  | received
  deriving Repr, DecidableEq

/-- The `POST /webhook/pakasir` handler of the payment router. On
`completed`/`success`: take the first unused redeem code for `order.role`;
if one exists, mark it used and complete the order with it, otherwise set
the order to `failed` with `failedReason: 'Out of stock'` and allocate
nothing. `pending` rewrites the status to `pending`; any other status sets
`failed`. The e-mail dispatch inside its own try/catch never touches the
stores and is omitted from the state. -/
def handlePaymentWebhook (now : String) (codes : List RCode)
    (orders : List DbOrder) (ev : PaymentEvent) :
    PaymentWebhookReply × List RCode × List DbOrder :=
  if ev.order_id = "" then (.missingOrderId, codes, orders)
  else
    match orders.find? (fun o => o.orderId == ev.order_id) with
    | none => (.notFound, codes, orders)
    | some order =>
      if ev.status = "completed" ∨ ev.status = "success" then
        match getAvailableCode codes order.role with
        | some rc =>
          let codes' := markAsUsed now codes rc.code order.username (some ev.order_id)
          let orders' := updateOrderRows orders ev.order_id (fun o =>
            { o with
              status := "completed", redeemCode := some rc.code,
              completedAt := some now })
          (.received, codes', orders')
        | none =>
          (.received, codes,
            updateOrderRows orders ev.order_id (fun o =>
              { o with status := "failed", failedReason := some "Out of stock" }))
      else if ev.status = "pending" then
        (.received, codes,
          updateOrderRows orders ev.order_id (fun o => { o with status := "pending" }))
      else
        (.received, codes,
          updateOrderRows orders ev.order_id (fun o => { o with status := "failed" }))

/-! ### Manual admin completion
(`server/routes/admin/orders-accounts.js`, `POST /orders/:orderId/complete`)

The route validates the supplied `accountId` (existence and availability
only) and then calls `Account.markAsSold(account.product_id, orderId,
order.username)` — which claims the *first available* unit of the product,
not necessarily the supplied one — and completes the order with whatever
unit `markAsSold` returned. The customer e-mail and the product.json stock
refresh at the end of the route touch neither the accounts table nor the
orders table and are omitted from the modelled state. -/

/-- Replies of the manual completion route, in source order. -/
inductive CompleteReply where
  | missingAccountId
  | orderNotFound
  | notPending (current : String)
  | accountNotFound
  | accountNotAvailable (current : String)
  | markFailed
  | ok (sold : Account)
  deriving Repr, DecidableEq

/-- The `POST /orders/:orderId/complete` handler. `accountId = 0` models a
missing/falsy `accountId` in the body (`if (!accountId)`). -/
def completeOrderManually (now : String) (accounts : List Account)
    (orders : List DbOrder) (orderId : String) (accountId : Nat) :
    CompleteReply × List Account × List DbOrder :=
  if accountId = 0 then (.missingAccountId, accounts, orders)
  else
    match orders.find? (fun o => o.orderId == orderId) with
    | none => (.orderNotFound, accounts, orders)
    | some order =>
      if order.status ≠ "pending" then (.notPending order.status, accounts, orders)
      else
        match accounts.find? (fun a => a.id == accountId) with
        | none => (.accountNotFound, accounts, orders)
        | some account =>
          if account.status ≠ "available" then
            (.accountNotAvailable account.status, accounts, orders)
          else
            match markAsSold now accounts account.product_id orderId order.username with
            | (none, accounts') => (.markFailed, accounts', orders)
            | (some sold, accounts') =>
              let orders' := updateOrderRows orders orderId (fun o =>
                { o with
                  status := "completed", accountData := some sold,
                  completedAt := some now, updatedAt := some now })
              (.ok sold, accounts', orders')

/-- Invariant of a catalog entry after a sync pass: with accounts present
for the product, the parsed cached stock equals the available count; with
none, the stored string parses to exactly 0 (so the second branch of
`entryNeedsUpdate` stays quiet as well). -/
def SyncedEntry (accounts : List Account) (p : ProductEntry) : Prop :=
  (hasAccounts accounts p.id = true ∧
    jsParseIntOr0 p.stock = (availableCount accounts p.id : Int)) ∨
  (hasAccounts accounts p.id = false ∧ jsParseInt p.stock = some 0)

/-! ### Proofs -/

/-! ### Round trip: `jsParseInt (jsNatToString n) = some n` -/

theorem digitChar_props (k : Nat) (hk : k < 10) :
    jsDigitVal? (digitChar k) = some k ∧ (digitChar k).isWhitespace = false ∧
    digitChar k ≠ '-' ∧ digitChar k ≠ '+' := by
  interval_cases k <;> exact ⟨by decide, by decide, by decide, by decide⟩

theorem natDigitsRevAux_irrel (n : Nat) : ∀ f₁ f₂ : Nat, n < f₁ → n < f₂ →
    natDigitsRevAux f₁ n = natDigitsRevAux f₂ n := by
  induction n using Nat.strong_induction_on with
  | _ n ih =>
    intro f₁ f₂ h₁ h₂
    obtain ⟨g₁, rfl⟩ : ∃ g, f₁ = g + 1 := ⟨f₁ - 1, by omega⟩
    obtain ⟨g₂, rfl⟩ : ∃ g, f₂ = g + 1 := ⟨f₂ - 1, by omega⟩
    rw [natDigitsRevAux, natDigitsRevAux]
    by_cases h : n < 10
    · rw [if_pos h, if_pos h]
    · rw [if_neg h, if_neg h]
      have hd : n / 10 < n := Nat.div_lt_self (by omega) (by omega)
      congr 1
      exact ih (n / 10) hd g₁ g₂ (by omega) (by omega)

theorem natDigitsRev_eq (n : Nat) : natDigitsRev n =
    if n < 10 then [digitChar n]
    else digitChar (n % 10) :: natDigitsRev (n / 10) := by
  rw [natDigitsRev, natDigitsRevAux]
  by_cases h : n < 10
  · rw [if_pos h, if_pos h]
  · rw [if_neg h, if_neg h]
    have hd : n / 10 < n := Nat.div_lt_self (by omega) (by omega)
    congr 1
    exact natDigitsRevAux_irrel (n / 10) n (n / 10 + 1) (by omega) (by omega)

theorem natDigitsRev_digits (n : Nat) :
    ∀ c ∈ natDigitsRev n, ∃ k, k < 10 ∧ c = digitChar k := by
  induction n using Nat.strong_induction_on with
  | _ n ih =>
    rw [natDigitsRev_eq]
    split
    · intro c hc
      simp only [List.mem_singleton] at hc
      exact ⟨n, by omega, hc⟩
    · intro c hc
      rcases List.mem_cons.mp hc with h | h
      · exact ⟨n % 10, Nat.mod_lt _ (by omega), h⟩
      · exact ih (n / 10) (Nat.div_lt_self (by omega) (by omega)) c h

theorem takeLeadDigits_all_digits (l : List Char)
    (hl : ∀ c ∈ l, ∃ k, k < 10 ∧ c = digitChar k) (a : Nat) :
    takeLeadDigits l (some a) = some (l.foldl digitFold a) := by
  induction l generalizing a with
  | nil => rfl
  | cons c rest ih =>
    obtain ⟨k, hk, rfl⟩ := hl c (List.mem_cons_self c rest)
    have hd := (digitChar_props k hk).1
    simp only [takeLeadDigits, hd, List.foldl_cons, digitFold, Option.getD_some]
    exact ih (fun c hc => hl c (List.mem_cons_of_mem _ hc)) _

theorem foldl_digitsOf (n : Nat) : ∀ a : Nat,
    ((natDigitsRev n).reverse).foldl digitFold a =
      a * 10 ^ (natDigitsRev n).length + n := by
  induction n using Nat.strong_induction_on with
  | _ n ih =>
    intro a
    rw [natDigitsRev_eq]
    split
    · next h =>
      simp only [List.reverse_singleton, List.foldl_cons, List.foldl_nil,
        List.length_singleton, pow_one, digitFold]
      rw [((digitChar_props n h).1)]
      rfl
    · next h =>
      simp only [List.reverse_cons, List.foldl_append, List.foldl_cons,
        List.foldl_nil, List.length_cons]
      rw [ih (n / 10) (Nat.div_lt_self (by omega) (by omega)) a]
      simp only [digitFold, ((digitChar_props (n % 10) (Nat.mod_lt _ (by omega))).1),
        Option.getD_some]
      rw [pow_succ]
      have := Nat.div_add_mod n 10
      ring_nf
      omega

theorem natDigitsRev_ne_nil (n : Nat) : natDigitsRev n ≠ [] := by
  rw [natDigitsRev_eq]; split <;> simp

theorem jsParseInt_roundtrip (n : Nat) :
    jsParseInt (jsNatToString n) = some (n : Int) := by
  have hdigits := natDigitsRev_digits n
  have hrevdigits : ∀ c ∈ (natDigitsRev n).reverse, ∃ k, k < 10 ∧ c = digitChar k :=
    fun c hc => hdigits c (List.mem_reverse.mp hc)
  have hnonnil : (natDigitsRev n).reverse ≠ [] := by
    simp [natDigitsRev_ne_nil n]
  obtain ⟨c, rest, hcr⟩ := List.exists_cons_of_ne_nil hnonnil
  obtain ⟨k, hk, hck⟩ := hrevdigits c (by rw [hcr]; exact List.mem_cons_self _ _)
  obtain ⟨hdv, hws, hdash, hplus⟩ := digitChar_props k hk
  have htolist : (jsNatToString n).toList = (natDigitsRev n).reverse := rfl
  have hdrop : ((natDigitsRev n).reverse).dropWhile (fun c => c.isWhitespace) =
      (natDigitsRev n).reverse := by
    rw [hcr, List.dropWhile_cons]
    subst hck
    simp [hws]
  rw [jsParseInt, htolist, hdrop, hcr]
  subst hck
  simp only [if_neg hdash, if_neg hplus]
  have hstep : takeLeadDigits (digitChar k :: rest) none =
      takeLeadDigits rest (some k) := by
    simp [takeLeadDigits, hdv]
  have hresttail : ∀ c ∈ rest, ∃ j, j < 10 ∧ c = digitChar j := by
    intro c hc
    exact hrevdigits c (by rw [hcr]; exact List.mem_cons_of_mem _ hc)
  rw [hstep, takeLeadDigits_all_digits rest hresttail k]
  have hfold := foldl_digitsOf n 0
  rw [hcr] at hfold
  simp only [List.foldl_cons, digitFold, hdv, Option.getD_some] at hfold
  simp only [Nat.zero_mul, Nat.zero_add] at hfold
  rw [hfold]
  simp

theorem jsParseIntOr0_roundtrip (n : Nat) :
    jsParseIntOr0 (jsNatToString n) = (n : Int) := by
  rw [jsParseIntOr0, jsParseInt_roundtrip]; rfl

theorem find?_replaceFirst {p : α → Bool} {v : α} {l : List α} {x : α}
    (hfind : l.find? p = some x) (hv : p v = true) :
    (replaceFirst p v l).find? p = some v := by
  induction l with
  | nil => simp at hfind
  | cons y ys ih =>
    by_cases hy : p y = true
    · simp [replaceFirst, hy, List.find?_cons_of_pos, hv]
    · rw [List.find?_cons_of_neg _ (by simp_all)] at hfind
      simp only [replaceFirst, hy, if_false, Bool.false_eq_true]
      rw [List.find?_cons_of_neg _ (by simp_all)]
      exact ih hfind

theorem find?_map_keyed {l : List α} {f : α → String} {k : String}
    {g : α → α} {o : α}
    (hfind : l.find? (fun x => f x == k) = some o)
    (hg : f (g o) = k) :
    (l.map (fun x => if f x == k then g x else x)).find?
      (fun x => f x == k) = some (g o) := by
  induction l with
  | nil => simp at hfind
  | cons y ys ih =>
    by_cases hy : f y = k
    · rw [List.find?_cons_of_pos _ (by simp [hy])] at hfind
      have hyo : y = o := by injection hfind
      subst hyo
      simp only [List.map_cons, if_pos (by simp [hy] : (f y == k) = true)]
      exact List.find?_cons_of_pos _ (by simp [hg])
    · rw [List.find?_cons_of_neg _ (by simp [hy])] at hfind
      simp only [List.map_cons, if_neg (by simp [hy] : ¬(f y == k) = true)]
      rw [List.find?_cons_of_neg _ (by simp [hy])]
      exact ih hfind


/-! ### Facts about the webhook building blocks -/

theorem completedOrderUpdate_fields (eff : PakasirEffects) (ev : PaymentEvent)
    (o : WebOrder) :
    (completedOrderUpdate eff ev o).orderId = o.orderId ∧
    (completedOrderUpdate eff ev o).amount = o.amount ∧
    (completedOrderUpdate eff ev o).status = "completed" ∧
    (completedOrderUpdate eff ev o).redeemCode = some eff.newRedeemCode :=
  ⟨rfl, rfl, rfl, rfl⟩

theorem emailFinal_fields (eff : PakasirEffects) (o u : WebOrder) :
    (emailFinal eff o u).orderId = u.orderId ∧
    (emailFinal eff o u).amount = u.amount ∧
    (emailFinal eff o u).status = u.status ∧
    (emailFinal eff o u).redeemCode = u.redeemCode := by
  unfold emailFinal
  cases h1 : jsStrOr o.username o.customer <;>
    cases h2 : eff.sendRedeem <;>
      cases h3 : eff.adminNotifyThrows <;> simp

/-- C7. For every payment event whose amount differs from the stored amount
of the referenced order, the `/pakasir` handler rejects the event with the
400 `Amount mismatch` body and the durable state — the order record
included — is left entirely unchanged. -/
theorem c7_amount_mismatch_rejected (eff : PakasirEffects) (st : ShopState)
    (ev : PaymentEvent) (order : WebOrder)
    (hreq : ¬(ev.order_id = "" ∨ ev.amount = 0 ∨ ev.status = ""))
    (hfind : st.orders.find? (fun o => o.orderId == ev.order_id) = some order)
    (hneq : order.amount ≠ ev.amount) :
    handlePakasir eff st ev =
      ⟨.amountMismatch order.amount ev.amount, st, 1⟩ ∧
    httpStatus (.amountMismatch order.amount ev.amount) = 400 := by
  constructor
  · rw [handlePakasir, if_neg hreq, hfind]
    dsimp only
    rw [if_pos hneq]
  · rfl

/-- Witness for `c7_amount_mismatch_rejected` at a concrete state: order
`ORD-3` stores amount 20000 and the event carries 99999. -/
theorem c7_amount_mismatch_rejected_witness :
    handlePakasir {} ⟨[{ orderId := "ORD-3", amount := 20000 }], []⟩
        { order_id := "ORD-3", amount := 99999, status := "completed" } =
      ⟨.amountMismatch 20000 99999, ⟨[{ orderId := "ORD-3", amount := 20000 }], []⟩, 1⟩ ∧
    httpStatus (.amountMismatch 20000 99999) = 400 :=
  c7_amount_mismatch_rejected {} _ _ { orderId := "ORD-3", amount := 20000 }
    (by decide) (by decide) (by decide)

/-- C1 counterexample. A `cancelled` order (terminal per the spec's state
machine) is *not* left unchanged by a `completed` payment event with a
matching amount: the `/pakasir` handler only short-circuits on
`order.status === 'completed'`, so it re-completes the cancelled order
(and decrements the cached role stock). The claimed terminal no-op fails
at this concrete input. -/
theorem c1_terminal_not_protected_cex :
    (handlePakasir {}
        ⟨[{ orderId := "ORD-1", amount := 20000, status := "cancelled",
            roleId := some "P1" }],
          [{ id := "P1", name := "VIP", stock := 3 }]⟩
        { order_id := "ORD-1", amount := 20000, status := "completed" }).state.orders.map
        (fun o => o.status) = ["completed"] ∧
    (handlePakasir {}
        ⟨[{ orderId := "ORD-1", amount := 20000, status := "cancelled",
            roleId := some "P1" }],
          [{ id := "P1", name := "VIP", stock := 3 }]⟩
        { order_id := "ORD-1", amount := 20000, status := "completed" }).state.roles.map
        (fun r => r.stock) = [2] := by
  constructor <;> rfl

/-- C1 (amended). Only orders already in status `completed` are treated
idempotently, and only for events with status `completed`: then the handler
changes nothing and answers the 200 `Order already processed`
acknowledgment. Orders in the other terminal states (`failed`, `cancelled`,
`expired`) are not protected (see the counterexample). -/
theorem c1_completed_shortcircuit (eff : PakasirEffects) (st : ShopState)
    (ev : PaymentEvent) (order : WebOrder)
    (hreq : ¬(ev.order_id = "" ∨ ev.amount = 0 ∨ ev.status = ""))
    (hfind : st.orders.find? (fun o => o.orderId == ev.order_id) = some order)
    (hamt : order.amount = ev.amount)
    (hev : ev.status = "completed")
    (hord : order.status = "completed") :
    handlePakasir eff st ev = ⟨.alreadyProcessed, st, 1⟩ ∧
    httpStatus .alreadyProcessed = 200 ∧ replyReceived .alreadyProcessed = true := by
  refine ⟨?_, rfl, rfl⟩
  rw [handlePakasir, if_neg hreq, hfind]
  dsimp only
  rw [if_neg (fun h => h hamt), if_pos hev, if_pos hord]

/-- Witness for `c1_completed_shortcircuit`: redelivery of a completed
event to an already-completed order. -/
theorem c1_completed_shortcircuit_witness :
    handlePakasir {}
        ⟨[{ orderId := "ORD-1", amount := 20000, status := "completed" }], []⟩
        { order_id := "ORD-1", amount := 20000, status := "completed" } =
      ⟨.alreadyProcessed,
        ⟨[{ orderId := "ORD-1", amount := 20000, status := "completed" }], []⟩, 1⟩ ∧
    httpStatus .alreadyProcessed = 200 ∧ replyReceived .alreadyProcessed = true :=
  c1_completed_shortcircuit {} _ _
    { orderId := "ORD-1", amount := 20000, status := "completed" }
    (by decide) (by decide) (by decide) (by decide) (by decide)

/-- C8 counterexample. For a well-formed event whose order is unknown, the
`/pakasir` handler performs exactly one order-store lookup — there is no
retry loop and no backoff anywhere in the handler — before acknowledging:
the claimed bounded retry does not happen at this concrete input. -/
theorem c8_no_retry_cex :
    (handlePakasir {} ⟨[], []⟩
        { order_id := "ORD-MISSING", amount := 5000, status := "completed" }).lookups = 1 ∧
    ¬((handlePakasir {} ⟨[], []⟩
        { order_id := "ORD-MISSING", amount := 5000, status := "completed" }).lookups ≥ 2) ∧
    (handlePakasir {} ⟨[], []⟩
        { order_id := "ORD-MISSING", amount := 5000, status := "completed" }).reply =
      .orderNotFound := by
  refine ⟨rfl, by decide, rfl⟩

/-- C8 (amended). On a well-formed event whose order identifier is not in
the order store, the handler gives up after a single immediate lookup (no
retry, no backoff) and returns the 200 success acknowledgment carrying the
warning `Order not found in local database`, never a failure response. -/
theorem c8_single_lookup_ack_warning (eff : PakasirEffects) (st : ShopState)
    (ev : PaymentEvent)
    (hreq : ¬(ev.order_id = "" ∨ ev.amount = 0 ∨ ev.status = ""))
    (hnf : st.orders.find? (fun o => o.orderId == ev.order_id) = none) :
    handlePakasir eff st ev = ⟨.orderNotFound, st, 1⟩ ∧
    replyWarning .orderNotFound = some "Order not found in local database" ∧
    httpStatus .orderNotFound = 200 ∧ replyReceived .orderNotFound = true := by
  refine ⟨?_, rfl, rfl, rfl⟩
  rw [handlePakasir, if_neg hreq, hnf]

/-- Witness for `c8_single_lookup_ack_warning` at a concrete state. -/
theorem c8_single_lookup_ack_warning_witness :
    handlePakasir {} ⟨[{ orderId := "ORD-1", amount := 100 }], []⟩
        { order_id := "ORD-2", amount := 100, status := "completed" } =
      ⟨.orderNotFound, ⟨[{ orderId := "ORD-1", amount := 100 }], []⟩, 1⟩ ∧
    replyWarning .orderNotFound = some "Order not found in local database" ∧
    httpStatus .orderNotFound = 200 ∧ replyReceived .orderNotFound = true :=
  c8_single_lookup_ack_warning {} _ _ (by decide) (by decide)

/-- C3. Delivering the same `completed` event twice in sequence to a pending
order: the first delivery completes the order and allocates exactly one
redeem code (the webhook's inventory unit), and — provided the first
order-file write succeeded, so the completion is durable — the second
delivery changes nothing and answers the `Order already processed`
acknowledgment. In particular the cached stock is decremented only once,
since the second pass never reaches the stock section. -/
theorem c3_duplicate_completed_idempotent
    (eff₁ eff₂ : PakasirEffects) (st : ShopState) (ev : PaymentEvent) (order : WebOrder)
    (hreq : ¬(ev.order_id = "" ∨ ev.amount = 0 ∨ ev.status = ""))
    (hev : ev.status = "completed")
    (hfind : st.orders.find? (fun o => o.orderId == ev.order_id) = some order)
    (hpend : order.status = "pending")
    (hamt : order.amount = ev.amount)
    (hw : eff₁.writeOrdersOk = true) :
    (handlePakasir eff₂ (handlePakasir eff₁ st ev).state ev).reply = .alreadyProcessed ∧
    (handlePakasir eff₂ (handlePakasir eff₁ st ev).state ev).state =
      (handlePakasir eff₁ st ev).state ∧
    ∃ v, (handlePakasir eff₁ st ev).state.orders.find?
        (fun o => o.orderId == ev.order_id) = some v ∧
      v.status = "completed" ∧ v.redeemCode = some eff₁.newRedeemCode := by
  have hnotc : ¬order.status = "completed" := by rw [hpend]; decide
  have h1 : handlePakasir eff₁ st ev =
      ⟨.ack ev.order_id ev.status,
        ⟨replaceFirst (fun o => o.orderId == ev.order_id)
            (emailFinal eff₁ order (completedOrderUpdate eff₁ ev order)) st.orders,
          stockRolesAfter eff₁ order st.roles⟩, 1⟩ := by
    rw [handlePakasir, if_neg hreq, hfind]
    dsimp only
    rw [if_neg (fun h => h hamt), if_pos hev, if_neg hnotc, hw, if_pos rfl]
  have hporder : (order.orderId == ev.order_id) = true :=
    List.find?_some (p := fun (o : WebOrder) => o.orderId == ev.order_id) hfind
  have hvfields := emailFinal_fields eff₁ order (completedOrderUpdate eff₁ ev order)
  have hpv : ((emailFinal eff₁ order (completedOrderUpdate eff₁ ev order)).orderId ==
      ev.order_id) = true := by
    rw [hvfields.1, (completedOrderUpdate_fields eff₁ ev order).1]
    exact hporder
  have hfind2 : (replaceFirst (fun o => o.orderId == ev.order_id)
        (emailFinal eff₁ order (completedOrderUpdate eff₁ ev order)) st.orders).find?
        (fun o => o.orderId == ev.order_id) =
      some (emailFinal eff₁ order (completedOrderUpdate eff₁ ev order)) :=
    find?_replaceFirst hfind hpv
  have hvamt : (emailFinal eff₁ order (completedOrderUpdate eff₁ ev order)).amount =
      ev.amount := by
    rw [hvfields.2.1, (completedOrderUpdate_fields eff₁ ev order).2.1, hamt]
  have hvstat : (emailFinal eff₁ order (completedOrderUpdate eff₁ ev order)).status =
      "completed" := by
    rw [hvfields.2.2.1, (completedOrderUpdate_fields eff₁ ev order).2.2.1]
  have hvcode : (emailFinal eff₁ order (completedOrderUpdate eff₁ ev order)).redeemCode =
      some eff₁.newRedeemCode := by
    rw [hvfields.2.2.2, (completedOrderUpdate_fields eff₁ ev order).2.2.2]
  have h2 : handlePakasir eff₂ (handlePakasir eff₁ st ev).state ev =
      ⟨.alreadyProcessed, (handlePakasir eff₁ st ev).state, 1⟩ := by
    rw [h1]
    rw [handlePakasir, if_neg hreq]
    dsimp only
    rw [hfind2]
    dsimp only
    rw [if_neg (fun h => h hvamt), if_pos hev, if_pos hvstat]
  refine ⟨by rw [h2], by rw [h2], ?_⟩
  exact ⟨emailFinal eff₁ order (completedOrderUpdate eff₁ ev order),
    by rw [h1]; exact hfind2, hvstat, hvcode⟩

/-- Witness for `c3_duplicate_completed_idempotent`: the spec's scenario
(order `ORD-1`, amount 20000, one unit of stock) delivered twice. -/
theorem c3_duplicate_completed_idempotent_witness :
    (handlePakasir {}
      (handlePakasir {}
        ⟨[{ orderId := "ORD-1", username := some "a@b.c", amount := 20000,
            roleId := some "P1" }],
          [{ id := "P1", name := "VIP", stock := 1 }]⟩
        { order_id := "ORD-1", amount := 20000, status := "completed" }).state
      { order_id := "ORD-1", amount := 20000, status := "completed" }).reply =
        .alreadyProcessed ∧
    (handlePakasir {}
      (handlePakasir {}
        ⟨[{ orderId := "ORD-1", username := some "a@b.c", amount := 20000,
            roleId := some "P1" }],
          [{ id := "P1", name := "VIP", stock := 1 }]⟩
        { order_id := "ORD-1", amount := 20000, status := "completed" }).state
      { order_id := "ORD-1", amount := 20000, status := "completed" }).state =
      (handlePakasir {}
        ⟨[{ orderId := "ORD-1", username := some "a@b.c", amount := 20000,
            roleId := some "P1" }],
          [{ id := "P1", name := "VIP", stock := 1 }]⟩
        { order_id := "ORD-1", amount := 20000, status := "completed" }).state ∧
    ∃ v, (handlePakasir {}
        ⟨[{ orderId := "ORD-1", username := some "a@b.c", amount := 20000,
            roleId := some "P1" }],
          [{ id := "P1", name := "VIP", stock := 1 }]⟩
        { order_id := "ORD-1", amount := 20000, status := "completed" }).state.orders.find?
        (fun o => o.orderId == "ORD-1") = some v ∧
      v.status = "completed" ∧ v.redeemCode = some "GTPS-00000000" :=
  c3_duplicate_completed_idempotent {} {} _ _
    { orderId := "ORD-1", username := some "a@b.c", amount := 20000,
      roleId := some "P1" }
    (by decide) (by decide) (by decide) (by decide) (by decide) (by decide)

/-- C5 counterexample. Completing order `ORD-1` via the `/pakasir` handler
*does* write the catalog store's cached stock: role `P1` goes from 1 to 0
(webhook.js lines 243–264 decrement `roles.json` directly). The claimed
frame property — the cached stock is identical before and after
`handlePaymentEvent` — fails at this concrete input. -/
theorem c5_webhook_writes_stock_cex :
    (handlePakasir {}
        ⟨[{ orderId := "ORD-1", amount := 20000, roleId := some "P1" }],
          [{ id := "P1", name := "VIP", stock := 1 }]⟩
        { order_id := "ORD-1", amount := 20000, status := "completed" }).state.roles.map
        (fun r => r.stock) = [0] ∧
    ([{ id := "P1", name := "VIP", stock := 1 }] : List CatalogRole).map
        (fun r => r.stock) = [1] := by
  constructor <;> rfl

/-- C5 (amended). The `/pakasir` handler is itself a writer of the cached
per-product stock: completing a not-yet-completed order whose `roleId`
resolves to a role with positive cached stock decrements that cached value
by one (when the roles-file write succeeds). The cached stock is therefore
mutated both by the webhook and by the Stock Sync Reconciler. -/
theorem c5_webhook_decrements_stock (eff : PakasirEffects) (st : ShopState)
    (ev : PaymentEvent) (order : WebOrder) (rid : String) (role : CatalogRole)
    (hreq : ¬(ev.order_id = "" ∨ ev.amount = 0 ∨ ev.status = ""))
    (hfind : st.orders.find? (fun o => o.orderId == ev.order_id) = some order)
    (hamt : order.amount = ev.amount)
    (hev : ev.status = "completed")
    (hnotc : ¬order.status = "completed")
    (hrid : strTruthy order.roleId = some rid)
    (hrole : st.roles.find? (fun r => r.id == rid) = some role)
    (hstock : role.stock > 0)
    (hwr : eff.rolesWriteOk = true) :
    (handlePakasir eff st ev).state.roles.find? (fun r => r.id == rid) =
      some { role with stock := role.stock - 1 } := by
  have h1 : (handlePakasir eff st ev).state.roles = stockRolesAfter eff order st.roles := by
    rw [handlePakasir, if_neg hreq, hfind]
    dsimp only
    rw [if_neg (fun h => h hamt), if_pos hev, if_neg hnotc]
  rw [h1, stockRolesAfter, hrid]
  dsimp only
  rw [hrole]
  dsimp only
  rw [if_pos hstock, hwr, if_pos rfl]
  have hprole : (role.id == rid) = true :=
    List.find?_some (p := fun (r : CatalogRole) => r.id == rid) hrole
  exact find?_replaceFirst hrole hprole

/-- Witness for `c5_webhook_decrements_stock` at the counterexample state. -/
theorem c5_webhook_decrements_stock_witness :
    (handlePakasir {}
        ⟨[{ orderId := "ORD-1", amount := 20000, roleId := some "P1" }],
          [{ id := "P1", name := "VIP", stock := 1 }]⟩
        { order_id := "ORD-1", amount := 20000, status := "completed" }).state.roles.find?
        (fun r => r.id == "P1") =
      some { id := "P1", name := "VIP", stock := 0 } :=
  c5_webhook_decrements_stock {} _ _
    { orderId := "ORD-1", amount := 20000, roleId := some "P1" } "P1"
    { id := "P1", name := "VIP", stock := 1 }
    (by decide) (by decide) (by decide) (by decide) (by decide) (by decide)
    (by decide) (by decide) (by decide)

/-- C9. Once an event passes the field-presence check and its amount agrees
with the stored amount of whatever order it resolves to (including the
order-not-found case), the `/pakasir` handler answers HTTP 200 with
`received: true` for *every* combination of internal effect outcomes —
failed order-file writes, failed or throwing e-mail dispatch, throwing
admin notification, failed roles-file write — and the outer catch (modelled
by `WebhookReply.internalError`) likewise answers 200 with
`received: true`: no internal processing failure ever surfaces to the
gateway as a failure-status response. -/
theorem c9_always_ack_success (eff : PakasirEffects) (st : ShopState)
    (ev : PaymentEvent)
    (hreq : ¬(ev.order_id = "" ∨ ev.amount = 0 ∨ ev.status = ""))
    (hamt : ∀ o, st.orders.find? (fun x => x.orderId == ev.order_id) = some o →
      o.amount = ev.amount) :
    (httpStatus (handlePakasir eff st ev).reply = 200 ∧
      replyReceived (handlePakasir eff st ev).reply = true) ∧
    ∀ m, httpStatus (.internalError m) = 200 ∧
      replyReceived (.internalError m) = true := by
  refine ⟨?_, fun m => ⟨rfl, rfl⟩⟩
  rw [handlePakasir, if_neg hreq]
  cases hfind : st.orders.find? (fun o => o.orderId == ev.order_id) with
  | none => exact ⟨rfl, rfl⟩
  | some order =>
    dsimp only
    rw [if_neg (fun h => h (hamt order hfind))]
    split_ifs <;> exact ⟨rfl, rfl⟩

/-- Witness for `c9_always_ack_success`: a valid event for a pending order
processed under all-failing effects (order write fails, e-mail throws,
admin notification throws, roles write fails) still yields 200 and
`received: true`. -/
theorem c9_always_ack_success_witness :
    (httpStatus (handlePakasir
        { writeOrdersOk := false, sendRedeem := .exn "smtp down",
          adminNotifyThrows := some "smtp down", rolesWriteOk := false }
        ⟨[{ orderId := "ORD-1", username := some "a@b.c", amount := 20000,
            roleId := some "P1" }],
          [{ id := "P1", name := "VIP", stock := 1 }]⟩
        { order_id := "ORD-1", amount := 20000, status := "completed" }).reply = 200 ∧
      replyReceived (handlePakasir
        { writeOrdersOk := false, sendRedeem := .exn "smtp down",
          adminNotifyThrows := some "smtp down", rolesWriteOk := false }
        ⟨[{ orderId := "ORD-1", username := some "a@b.c", amount := 20000,
            roleId := some "P1" }],
          [{ id := "P1", name := "VIP", stock := 1 }]⟩
        { order_id := "ORD-1", amount := 20000, status := "completed" }).reply = true) ∧
    ∀ m, httpStatus (.internalError m) = 200 ∧
      replyReceived (.internalError m) = true :=
  c9_always_ack_success
    { writeOrdersOk := false, sendRedeem := .exn "smtp down",
      adminNotifyThrows := some "smtp down", rolesWriteOk := false } _ _
    (by decide) (fun o h => by
      have hc : (some { orderId := "ORD-1", username := some "a@b.c", amount := 20000, roleId := some "P1" } : Option WebOrder) = some o := by
        rw [← h]; decide
      cases hc
      rfl)

/-- C2 counterexample. State: unit 1 of product `P1` is already sold and
bound to order `O1`; unit 2 is available. Re-invoking `markAsSold` for `P1`
and `O1` does *not* return the already-bound unit 1 unchanged: it claims
and returns unit 2, after which two units are bound to `O1` — the claimed
idempotent retry safety and the at-most-one-unit-per-order invariant both
fail at this concrete input. -/
theorem c2_markAsSold_not_idempotent_cex :
    ((markAsSold "t1"
        [{ id := 1, product_id := "P1", email := "a@x", status := "sold",
           sold_to := some "c@d", order_id := some "O1" },
         { id := 2, product_id := "P1", email := "b@x" }]
        "P1" "O1" "c@d").1 ≠
      some { id := 1, product_id := "P1", email := "a@x", status := "sold",
             sold_to := some "c@d", order_id := some "O1" }) ∧
    ((markAsSold "t1"
        [{ id := 1, product_id := "P1", email := "a@x", status := "sold",
           sold_to := some "c@d", order_id := some "O1" },
         { id := 2, product_id := "P1", email := "b@x" }]
        "P1" "O1" "c@d").2.countP (fun a => a.order_id == some "O1")) = 2 := by
  constructor
  · decide
  · decide

/-- C2 (amended). `markAsSold` never inspects existing order bindings: even
when some unit is already sold and bound to order `o`, re-invoking it for
`o`'s product claims the first *available* unit — a second, distinct unit
(ids are the primary key, hence pairwise distinct) — binds it to `o` too,
and leaves the originally bound unit in place, so more than one unit can
end up bound to the same order identifier. -/
theorem c2_markAsSold_claims_second_unit (now e p o : String)
    (accounts : List Account) (b : Account)
    (hids : (accounts.map (fun a => a.id)).Nodup)
    (hb : b ∈ accounts) (hbo : b.order_id = some o) (hbs : b.status = "sold")
    (avail : ∃ a ∈ accounts, a.product_id = p ∧ a.status = "available") :
    ∃ u accounts', markAsSold now accounts p o e = (some u, accounts') ∧
      u.id ≠ b.id ∧ u.order_id = some o ∧ u.status = "sold" ∧
      b ∈ accounts' ∧ u ∈ accounts' := by
  have hfound : (accounts.find?
      (fun a => a.product_id == p && a.status == "available")).isSome := by
    rw [List.find?_isSome]
    obtain ⟨a, ha, h1, h2⟩ := avail
    exact ⟨a, ha, by simp [h1, h2]⟩
  obtain ⟨a, hfa⟩ := Option.isSome_iff_exists.mp hfound
  have hpa : (a.product_id == p && a.status == "available") = true :=
    List.find?_some (p := fun (a : Account) => a.product_id == p && a.status == "available") hfa
  have has : a.status = "available" := by
    simp only [Bool.and_eq_true, beq_iff_eq] at hpa
    exact hpa.2
  have hma : a ∈ accounts := List.mem_of_find?_eq_some hfa
  have hne : a ≠ b := by
    intro hab
    rw [hab, hbs] at has
    exact absurd has (by decide)
  have hidne : a.id ≠ b.id := by
    intro hid
    exact hne (List.inj_on_of_nodup_map hids hma hb hid)
  refine ⟨{ a with
      status := "sold", sold_at := some now,
      sold_to := some e, order_id := some o },
    accounts.map (fun x => if x.id == a.id then { a with
      status := "sold", sold_at := some now,
      sold_to := some e, order_id := some o } else x),
    ?_, hidne, rfl, rfl, ?_, ?_⟩
  · rw [markAsSold, hfa]
  · refine List.mem_map.mpr ⟨b, hb, ?_⟩
    have hbne : (b.id == a.id) = false := by
      simp only [beq_eq_false_iff_ne, ne_eq]
      exact fun h => hidne h.symm
    simp [hbne]
  · refine List.mem_map.mpr ⟨a, hma, ?_⟩
    simp

/-- Witness for `c2_markAsSold_claims_second_unit` at the counterexample
state. -/
theorem c2_markAsSold_claims_second_unit_witness :
    ∃ u accounts', markAsSold "t1"
        [{ id := 1, product_id := "P1", email := "a@x", status := "sold",
           sold_to := some "c@d", order_id := some "O1" },
         { id := 2, product_id := "P1", email := "b@x" }]
        "P1" "O1" "c@d" = (some u, accounts') ∧
      u.id ≠ (1 : Nat) ∧ u.order_id = some "O1" ∧ u.status = "sold" ∧
      ({ id := 1, product_id := "P1", email := "a@x", status := "sold",
         sold_to := some "c@d", order_id := some "O1" } : Account) ∈ accounts' ∧
      u ∈ accounts' :=
  c2_markAsSold_claims_second_unit "t1" "c@d" "P1" "O1" _
    { id := 1, product_id := "P1", email := "a@x", status := "sold",
      sold_to := some "c@d", order_id := some "O1" }
    (by decide) (by decide) (by decide) (by decide)
    ⟨{ id := 2, product_id := "P1", email := "b@x" }, by decide, by decide, by decide⟩

/-- C10. When the manual admin completion succeeds (order pending, supplied
account exists and is available), the unit actually marked sold and stored
on the order is the *first available* unit of the supplied account's
product — the one `markAsSold`'s allocation query selects — bound to the
order; the supplied `accountId` is only used for the existence and
availability checks. The final conjunct exhibits a run in which the
supplied id is 2 but the unit sold has id 1. -/
theorem c10_manual_complete_first_available (now oid : String) (accountId : Nat)
    (accounts : List Account) (orders : List DbOrder) (order : DbOrder)
    (acct : Account)
    (hid : accountId ≠ 0)
    (hord : orders.find? (fun x => x.orderId == oid) = some order)
    (hpend : order.status = "pending")
    (hacc : accounts.find? (fun a => a.id == accountId) = some acct)
    (havail : acct.status = "available") :
    (∃ w u accounts' orders',
      accounts.find? (fun a => a.product_id == acct.product_id &&
        a.status == "available") = some w ∧
      completeOrderManually now accounts orders oid accountId =
        (.ok u, accounts', orders') ∧
      u.id = w.id ∧ u.order_id = some oid ∧
      orders'.find? (fun x => x.orderId == oid) =
        some { order with
          status := "completed", accountData := some u,
          completedAt := some now, updatedAt := some now }) ∧
    (∃ u₀, (completeOrderManually "t0"
        [{ id := 1, product_id := "P1", email := "a@x" },
         { id := 2, product_id := "P1", email := "b@x" }]
        [{ orderId := "O-1", username := "u@x", role := "P1", amount := 100 }]
        "O-1" 2).1 = .ok u₀ ∧ u₀.id = 1 ∧ u₀.id ≠ 2) := by
  constructor
  · have hfound : (accounts.find? (fun a => a.product_id == acct.product_id &&
        a.status == "available")).isSome := by
      rw [List.find?_isSome]
      exact ⟨acct, List.mem_of_find?_eq_some hacc, by simp [havail]⟩
    obtain ⟨w, hw⟩ := Option.isSome_iff_exists.mp hfound
    have horder : (order.orderId == oid) = true :=
      List.find?_some (p := fun (x : DbOrder) => x.orderId == oid) hord
    have horder' : order.orderId = oid := by simpa using horder
    have hcomp : completeOrderManually now accounts orders oid accountId =
        (.ok { w with status := "sold", sold_at := some now, sold_to := some order.username, order_id := some oid },
          accounts.map (fun x => if x.id == w.id then { w with status := "sold", sold_at := some now, sold_to := some order.username, order_id := some oid } else x),
          updateOrderRows orders oid (fun o => { o with status := "completed", accountData := some { w with status := "sold", sold_at := some now, sold_to := some order.username, order_id := some oid }, completedAt := some now, updatedAt := some now })) := by
      rw [completeOrderManually, if_neg hid, hord]
      dsimp only
      rw [if_neg (fun h => h hpend), hacc]
      dsimp only
      rw [if_neg (fun h => h havail), markAsSold, hw]
    refine ⟨w, _, _, _, hw, hcomp, rfl, rfl, ?_⟩
    exact find?_map_keyed (f := fun x => DbOrder.orderId x) hord horder'
  · exact ⟨{ id := 1, product_id := "P1", email := "a@x", status := "sold", sold_at := some "t0", sold_to := some "u@x", order_id := some "O-1" },
      by decide, rfl, by decide⟩

/-- Witness for `c10_manual_complete_first_available`: completing pending
order `O-1` while supplying the second available unit (id 2). -/
theorem c10_manual_complete_first_available_witness :
    (∃ w u accounts' orders',
      (([{ id := 1, product_id := "P1", email := "a@x" },
          { id := 2, product_id := "P1", email := "b@x" }] : List Account).find?
        (fun a => a.product_id == ({ id := 2, product_id := "P1", email := "b@x" } : Account).product_id &&
          a.status == "available")) = some w ∧
      completeOrderManually "t0"
        [{ id := 1, product_id := "P1", email := "a@x" },
         { id := 2, product_id := "P1", email := "b@x" }]
        [{ orderId := "O-1", username := "u@x", role := "P1", amount := 100 }]
        "O-1" 2 = (.ok u, accounts', orders') ∧
      u.id = w.id ∧ u.order_id = some "O-1" ∧
      orders'.find? (fun x => x.orderId == "O-1") =
        some { ({ orderId := "O-1", username := "u@x", role := "P1", amount := 100 } : DbOrder) with
          status := "completed", accountData := some u,
          completedAt := some "t0", updatedAt := some "t0" }) ∧
    (∃ u₀, (completeOrderManually "t0"
        [{ id := 1, product_id := "P1", email := "a@x" },
         { id := 2, product_id := "P1", email := "b@x" }]
        [{ orderId := "O-1", username := "u@x", role := "P1", amount := 100 }]
        "O-1" 2).1 = .ok u₀ ∧ u₀.id = 1 ∧ u₀.id ≠ 2) :=
  c10_manual_complete_first_available "t0" "O-1" 2 _ _
    { orderId := "O-1", username := "u@x", role := "P1", amount := 100 }
    { id := 2, product_id := "P1", email := "b@x" }
    (by decide) (by decide) (by decide) (by decide) (by decide)

/-- C4. A `completed` payment event for a pending order whose product (the
order's `role`) has no unused redeem code left — zero available inventory —
allocates nothing (the code pool is returned untouched) and moves the order
to status `failed` with failure reason `Out of stock` (the `OutOfStock`
outcome of the error taxonomy), via the payment-router webhook that
implements the allocation-failure path. -/
theorem c4_out_of_stock_fails_order (now : String) (codes : List RCode)
    (orders : List DbOrder) (ev : PaymentEvent) (order : DbOrder)
    (hoid : ev.order_id ≠ "")
    (hfind : orders.find? (fun o => o.orderId == ev.order_id) = some order)
    (hpend : order.status = "pending")
    (hev : ev.status = "completed")
    (hnostock : ∀ c ∈ codes, c.role = order.role → c.used = true) :
    handlePaymentWebhook now codes orders ev =
      (.received, codes,
        updateOrderRows orders ev.order_id (fun o =>
          { o with status := "failed", failedReason := some "Out of stock" })) ∧
    (updateOrderRows orders ev.order_id (fun o =>
        { o with status := "failed", failedReason := some "Out of stock" })).find?
        (fun o => o.orderId == ev.order_id) =
      some { order with status := "failed", failedReason := some "Out of stock" } := by
  have hnone : getAvailableCode codes order.role = none := by
    rw [getAvailableCode, List.find?_eq_none]
    intro c hc hpc
    simp only [Bool.and_eq_true, beq_iff_eq, Bool.not_eq_true'] at hpc
    exact absurd (hnostock c hc hpc.1) (by rw [hpc.2]; decide)
  constructor
  · rw [handlePaymentWebhook, if_neg hoid, hfind]
    dsimp only
    rw [if_pos (Or.inl hev), hnone]
  · have horder : (order.orderId == ev.order_id) = true :=
      List.find?_some (p := fun (o : DbOrder) => o.orderId == ev.order_id) hfind
    have horder' : order.orderId = ev.order_id := by simpa using horder
    exact find?_map_keyed (f := fun o => DbOrder.orderId o) hfind horder'

/-- Witness for `c4_out_of_stock_fails_order`: the spec's scenario `ORD-2`
(pending, product `P1`, every code for `P1` already used). -/
theorem c4_out_of_stock_fails_order_witness :
    handlePaymentWebhook "t0"
        [{ code := "GTPS-AAAA", role := "P1", used := true }]
        [{ orderId := "ORD-2", username := "u@x", role := "P1", amount := 20000 }]
        { order_id := "ORD-2", amount := 20000, status := "completed" } =
      (.received, [{ code := "GTPS-AAAA", role := "P1", used := true }],
        updateOrderRows
          [{ orderId := "ORD-2", username := "u@x", role := "P1", amount := 20000 }]
          "ORD-2" (fun o =>
            { o with status := "failed", failedReason := some "Out of stock" })) ∧
    (updateOrderRows
        [{ orderId := "ORD-2", username := "u@x", role := "P1", amount := 20000 }]
        "ORD-2" (fun o =>
          { o with status := "failed", failedReason := some "Out of stock" })).find?
        (fun o => o.orderId == "ORD-2") =
      some { ({ orderId := "ORD-2", username := "u@x", role := "P1", amount := 20000 } : DbOrder) with
        status := "failed", failedReason := some "Out of stock" } :=
  c4_out_of_stock_fails_order "t0" _ _ _
    { orderId := "ORD-2", username := "u@x", role := "P1", amount := 20000 }
    (by decide) (by decide) (by decide) (by decide)
    (fun c hc _hrole => by
      have hc1 : c = { code := "GTPS-AAAA", role := "P1", used := true } := by
        simpa using hc
      rw [hc1])

theorem availableCount_eq_zero (accounts : List Account) (pid : String)
    (h : hasAccounts accounts pid = false) : availableCount accounts pid = 0 := by
  rw [availableCount, getStock, List.countP_eq_zero]
  intro a ha hpa
  simp only [Bool.and_eq_true, beq_iff_eq] at hpa
  have : hasAccounts accounts pid = true := by
    rw [hasAccounts, List.any_eq_true]
    exact ⟨a, ha, by simp [hpa.1]⟩
  rw [h] at this
  exact absurd this (by decide)

theorem syncedEntry_of_not_needs (accounts : List Account) (p : ProductEntry)
    (h : entryNeedsUpdate accounts p = false) : SyncedEntry accounts p := by
  rw [entryNeedsUpdate] at h
  by_cases hhas : hasAccounts accounts p.id = true
  · rw [if_pos hhas] at h
    left
    refine ⟨hhas, ?_⟩
    simpa using h
  · rw [if_neg hhas] at h
    right
    refine ⟨Bool.not_eq_true _ ▸ (by simpa using hhas), ?_⟩
    simpa using h

theorem syncedEntry_syncEntry (accounts : List Account) (p : ProductEntry) :
    SyncedEntry accounts (syncEntry accounts p) := by
  by_cases hn : entryNeedsUpdate accounts p = true
  · rw [syncEntry, if_pos hn]
    by_cases hhas : hasAccounts accounts p.id = true
    · left
      exact ⟨hhas, jsParseIntOr0_roundtrip _⟩
    · right
      have hh : hasAccounts accounts p.id = false := by simpa using hhas
      refine ⟨hh, ?_⟩
      rw [availableCount_eq_zero accounts p.id hh]
      exact jsParseInt_roundtrip 0
  · rw [syncEntry, if_neg hn]
    exact syncedEntry_of_not_needs accounts p (by simpa using hn)

theorem not_needs_of_synced (accounts : List Account) (p : ProductEntry)
    (h : SyncedEntry accounts p) : entryNeedsUpdate accounts p = false := by
  rw [entryNeedsUpdate]
  rcases h with ⟨h1, h2⟩ | ⟨h1, h2⟩
  · rw [if_pos h1]
    simp [h2]
  · rw [if_neg (by simp [h1])]
    simp [h2]

theorem synced_match (accounts : List Account) (p : ProductEntry)
    (h : SyncedEntry accounts p) :
    jsParseIntOr0 p.stock = (availableCount accounts p.id : Int) := by
  rcases h with ⟨_, h2⟩ | ⟨h1, h2⟩
  · exact h2
  · rw [availableCount_eq_zero accounts p.id h1, jsParseIntOr0, h2]
    rfl

theorem syncStock_all_synced (accounts : List Account)
    (products : List ProductEntry) :
    ∀ q ∈ (syncStock accounts products).2, SyncedEntry accounts q := by
  intro q hq
  rw [syncStock, updateProductJson] at hq
  dsimp only at hq
  by_cases hany : products.any (entryNeedsUpdate accounts) = true
  · rw [if_pos hany] at hq
    obtain ⟨p, _, rfl⟩ := List.mem_map.mp hq
    exact syncedEntry_syncEntry accounts p
  · rw [if_neg hany] at hq
    have hall := List.any_eq_false.mp (by simpa using hany)
    exact syncedEntry_of_not_needs accounts q (by simpa using hall q hq)

/-- C6. After `syncStock` (the `reconcile()` operation), every product
listed in the catalog has its cached stock — as the code itself reads it,
`parseInt(stock) || 0` — equal to the count of `available` inventory units
for that product; and running `syncStock` again on the result with the
same inventory reports `updated = false` and leaves the catalog untouched
(it writes nothing). -/
theorem c6_sync_converges_and_idempotent (accounts : List Account)
    (products : List ProductEntry) :
    (∀ q ∈ (syncStock accounts products).2,
      jsParseIntOr0 q.stock = (availableCount accounts q.id : Int)) ∧
    syncStock accounts (syncStock accounts products).2 =
      (false, (syncStock accounts products).2) := by
  have hsynced := syncStock_all_synced accounts products
  constructor
  · exact fun q hq => synced_match accounts q (hsynced q hq)
  · have hall : (syncStock accounts products).2.any (entryNeedsUpdate accounts) = false := by
      rw [List.any_eq_false]
      intro q hq
      simp [not_needs_of_synced accounts q (hsynced q hq)]
    rw [syncStock, updateProductJson, hall]
    simp

/-- Witness for `c6_sync_converges_and_idempotent`: a sold-out product with
a stale cached stock of 5 (rewritten to "0" by the pass, which the
membership proof evaluates) and a product absent from inventory; the
repaired entry's parsed stock equals its available count, and the second
pass reports no update. -/
theorem c6_sync_converges_and_idempotent_witness :
    jsParseIntOr0 ({ id := "P1", name := "VIP", stock := "0" } : ProductEntry).stock =
      (availableCount
        [{ id := 1, product_id := "P1", email := "a@x", status := "sold" }]
        ({ id := "P1", name := "VIP", stock := "0" } : ProductEntry).id : Int) ∧
    syncStock [{ id := 1, product_id := "P1", email := "a@x", status := "sold" }]
        (syncStock [{ id := 1, product_id := "P1", email := "a@x", status := "sold" }]
          [{ id := "P1", name := "VIP", stock := "5" },
           { id := "P2", name := "MAX", stock := "3" }]).2 =
      (false, (syncStock [{ id := 1, product_id := "P1", email := "a@x", status := "sold" }]
          [{ id := "P1", name := "VIP", stock := "5" },
           { id := "P2", name := "MAX", stock := "3" }]).2) :=
  ⟨(c6_sync_converges_and_idempotent
      [{ id := 1, product_id := "P1", email := "a@x", status := "sold" }]
      [{ id := "P1", name := "VIP", stock := "5" },
       { id := "P2", name := "MAX", stock := "3" }]).1
      { id := "P1", name := "VIP", stock := "0" } (by decide),
    (c6_sync_converges_and_idempotent
      [{ id := 1, product_id := "P1", email := "a@x", status := "sold" }]
      [{ id := "P1", name := "VIP", stock := "5" },
       { id := "P2", name := "MAX", stock := "3" }]).2⟩
